import Mathlib

/-
Shallow embedding of src/LearnIRCode/LearnIRCode.ino, an Arduino (AVR)
firmware that learns one infrared remote-control code and toggles an output
LED when that code is received again.

Machine-integer conventions of the AVR target: `int` is a signed 16-bit
integer, `long` a signed 32-bit integer, `long long` a signed 64-bit integer,
`boolean`/`byte`/`uint8_t` are 8-bit unsigned.  Values are modelled by their
bit patterns as `Nat` (below 2^16, 2^32, ... respectively), with every sign
extension and truncation that a C conversion performs made explicit.
The EEPROM is modelled as a byte store `Nat → Nat`; `delay` calls and the
pin writes of `processLearnLed` / `processWorkLed` (which only mirror state
to output pins) have no effect on the modelled state and are omitted.
-/

namespace LearnIRCode

/-- Macro `highWord(w)`, i.e. `(w) >> 16`, with the result truncated to a
16-bit `int` as in `data[0] = highWord(value)`: an arithmetic right shift of
a 32-bit pattern followed by truncation keeps bits 31..16. -/
def highWord (w : Nat) : Nat := w / 2 ^ 16 % 2 ^ 16

/-- Macro `lowWord(w)`, i.e. `(w) & 0xffff`, truncated to 16 bits. -/
def lowWord (w : Nat) : Nat := w % 2 ^ 16

/-- Arduino `highByte(w)`: `(uint8_t)((w) >> 8)` on a 16-bit word. -/
def highByte (w : Nat) : Nat := w / 2 ^ 8 % 2 ^ 8

/-- Arduino `lowByte(w)`: `(uint8_t)((w) & 0xff)`. -/
def lowByte (w : Nat) : Nat := w % 2 ^ 8

/-- Arduino `word(h, l)`: builds a 16-bit word `h << 8 | l` from two
`uint8_t` arguments (the truncation to 8 bits models the parameter types). -/
def word16 (h l : Nat) : Nat := h % 2 ^ 8 * 2 ^ 8 + l % 2 ^ 8

/-- Bit pattern of `(long) x` where `x` is a signed 16-bit `int` pattern:
sign extension from 16 to 32 bits. -/
def sext16to32 (x : Nat) : Nat :=
  if x % 2 ^ 16 < 2 ^ 15 then x % 2 ^ 16 else x % 2 ^ 16 + 0xFFFF0000

/-- Bit pattern of `(long long) x` where `x` is a signed 32-bit `long`
pattern: sign extension from 32 to 64 bits. -/
def sext32to64 (x : Nat) : Nat :=
  if x % 2 ^ 32 < 2 ^ 31 then x % 2 ^ 32 else x % 2 ^ 32 + 0xFFFFFFFF00000000

/-- Macro `makeLong(hi, low)`, i.e. `((long) hi) << 16 | (low)`, applied to
two 16-bit `int` values as in `loadFromEeprom`.  Both operands of `|` are
converted to `long` (32-bit): `hi` is sign extended and shifted (the shifted
result truncated to 32 bits), and `low` is sign extended. -/
def makeLong (hi low : Nat) : Nat :=
  sext16to32 hi * 2 ^ 16 % 2 ^ 32 ||| sext16to32 low

/-- The assignment `value &= ~0x8000LL` applied to a 32-bit `long` pattern `v`: `v` is
promoted (sign extended) to `long long`, masked with
`~0x8000LL = 0xFFFFFFFFFFFF7FFF`, and the result truncated back to 32 bits
by the assignment to `long value`. -/
def stripToggle (v : Nat) : Nat :=
  (sext32to64 v &&& 0xFFFFFFFFFFFF7FFF) % 2 ^ 32

/-- The EEPROM base address; the source defines `IR_CODE_DATA_ADDRESS` as 0. -/
def IR_CODE_DATA_ADDRESS : Nat := 0

/-- Procedure `EEPROM.write(a, b)`: pointwise update of the byte store; the data
argument has type `uint8_t`, hence the truncation to 8 bits. -/
def eepromWrite (rom : Nat → Nat) (a b : Nat) : Nat → Nat :=
  fun x => if x = a then b % 2 ^ 8 else rom x

/-- Procedure `saveToEeprom(long value, int address)`, instrumented: returns the
updated byte store together with the trace of `EEPROM.write` calls
(address, byte) in program order.  The source fills
`data[0] = highWord(value); data[1] = lowWord(value)` and then loops
`for (i = 0; i < 2; i++)` writing `highByte(data[i])` at `address + i*2`
and `lowByte(data[i])` at `address + i*2 + 1`; the loop is unrolled. -/
def saveToEepromT (value address : Nat) (rom : Nat → Nat) :
    (Nat → Nat) × List (Nat × Nat) :=
  let data0 := highWord value
  let data1 := lowWord value
  let w : List (Nat × Nat) :=
    [(address + 0 * 2, highByte data0), (address + 0 * 2 + 1, lowByte data0),
     (address + 1 * 2, highByte data1), (address + 1 * 2 + 1, lowByte data1)]
  (w.foldl (fun r p => eepromWrite r p.1 p.2) rom, w)

/-- Version of `saveToEeprom` without the instrumentation trace. -/
def saveToEeprom (value address : Nat) (rom : Nat → Nat) : Nat → Nat :=
  (saveToEepromT value address rom).1

/-- Procedure `loadFromEeprom(int address)`, instrumented: returns the loaded 32-bit
pattern together with the list of addresses read, in program order.  The
source loops `for (i = 0; i < 4; i++) data[i] = EEPROM.read(address + i)` and
then computes `high = word(data[0], data[1]); low = word(data[2], data[3]);
result = makeLong(high, low)`. -/
def loadFromEepromT (rom : Nat → Nat) (address : Nat) : Nat × List Nat :=
  let d0 := rom (address + 0) % 2 ^ 8
  let d1 := rom (address + 1) % 2 ^ 8
  let d2 := rom (address + 2) % 2 ^ 8
  let d3 := rom (address + 3) % 2 ^ 8
  let high := word16 d0 d1
  let low := word16 d2 d3
  (makeLong high low, [address + 0, address + 1, address + 2, address + 3])

/-- Version of `loadFromEeprom` without the instrumentation trace. -/
def loadFromEeprom (rom : Nat → Nat) (address : Nat) : Nat :=
  (loadFromEepromT rom address).1

/-- The protocol tag of a decoded result (`decode_type` field of
`decode_results` in the IRremote library); the firmware only distinguishes
`RC6` from everything else. -/
inductive DecodeType
  | NEC
  | SONY
  | RC5
  | RC6
  | DISH
  | SHARP
  | PANASONIC
  | JVC
  | UNKNOWN
deriving DecidableEq

/-- A decoded event from the IR receiver: the fields of `decode_results`
that the firmware reads.  `value` is the bit pattern of `irresult.value`
(an `unsigned long`, hence below 2^32 on real hardware). -/
structure IrResult where
  value : Nat
  decode_type : DecodeType

/-- The mutable global state of the firmware: `learnButtonState`,
`learnModeEnabled`, `workLedState`, `irCodeData` (a 32-bit `long` pattern),
together with the EEPROM byte store the firmware reads and writes. -/
structure DeviceState where
  learnButtonState : Bool
  learnModeEnabled : Bool
  workLedState : Bool
  irCodeData : Nat
  eeprom : Nat → Nat

/-- Procedure `processCode(long value)`, instrumented: returns the new state together
with the trace of `saveToEeprom` calls as (value, address) pairs.  In learn
mode the code is stored (`irCodeData = value`), saved to EEPROM (the source
calls `saveToEeprom(irCodeData, IR_CODE_DATA_ADDRESS)` right after the
assignment, so the value saved is `value`), and learn mode is switched off;
otherwise a code equal to `irCodeData` toggles the work LED.  The `delay(100)`
calls affect no modelled state. -/
def processCodeT (value : Nat) (s : DeviceState) : DeviceState × List (Nat × Nat) :=
  if s.learnModeEnabled then
    ({ s with
        irCodeData := value
        eeprom := saveToEeprom value IR_CODE_DATA_ADDRESS s.eeprom
        learnModeEnabled := false },
      [(value, IR_CODE_DATA_ADDRESS)])
  else if s.irCodeData = value then
    ({ s with workLedState := !s.workLedState }, [])
  else
    (s, [])

/-- Version of `processCode` without the instrumentation trace. -/
def processCode (value : Nat) (s : DeviceState) : DeviceState :=
  (processCodeT value s).1

/-- Function `getButtonState(int pin, boolean pullUp)`.  The pin levels observed by
the four `digitalRead` calls (the initial read and the three re-reads of the
debounce loop, 10 ms apart) are passed as `r0 r1 r2 r3` (`true` = HIGH).
The loop is unrolled with its early `return -1` on the first disagreeing
re-read; if all agree the result is `pullUp ^ pinState` on the 0/1 integer
encodings of the booleans. -/
def getButtonState (r0 r1 r2 r3 : Bool) (pullUp : Bool) : Int :=
  if r1 ≠ r0 then -1
  else if r2 ≠ r0 then -1
  else if r3 ≠ r0 then -1
  else if xor pullUp r0 then 1 else 0

/-- Procedure `processLearnButton()`: samples the learn button (with `pullUp = true`),
ignores an indeterminate (-1) sample, ignores an unchanged state (the
`boolean` global `learnButtonState` is promoted to the `int` 0/1 for the
comparison), and otherwise commits the new state to both `learnButtonState`
and `learnModeEnabled` (the `int` 0/1 is converted back to `boolean`, i.e.
truth is `≠ 0`). -/
def processLearnButton (r0 r1 r2 r3 : Bool) (s : DeviceState) : DeviceState :=
  let buttonState := getButtonState r0 r1 r2 r3 true
  if buttonState = -1 then s
  else if buttonState = (if s.learnButtonState then 1 else 0) then s
  else
    { s with
        learnButtonState := decide (buttonState ≠ 0)
        learnModeEnabled := decide (buttonState ≠ 0) }

/-- The body of `processIr()` guarded by `irrecv.decode(&irresult)`: the
normalization the firmware applies before `processCode`.  A raw value of
`0xFFFFFFFF` is ignored (`processCode` is not called, modelled by `none`);
for `decode_type == RC6` the toggle bit is cleared by `value &= ~0x8000LL`;
every other protocol passes the value through unchanged. -/
def normalizeIr (r : IrResult) : Option Nat :=
  if r.value = 0xFFFFFFFF then none
  else if r.decode_type = DecodeType.RC6 then some (stripToggle r.value)
  else some r.value

/-- Procedure `processIr()`, instrumented: `ev` is the decoded result when
`irrecv.decode` succeeded this iteration (`none` otherwise); the returned
trace lists the `saveToEeprom` calls made.  `irrecv.resume()` touches no
modelled state. -/
def processIrT (ev : Option IrResult) (s : DeviceState) : DeviceState × List (Nat × Nat) :=
  match ev with
  | none => (s, [])
  | some r =>
    match normalizeIr r with
    | none => (s, [])
    | some v => processCodeT v s

/-- The inputs consumed by one iteration of `loop()`: the four pin levels
the debounce of `processLearnButton` observes, and the decoded IR event of
`processIr`, if any. -/
structure LoopInput where
  r0 : Bool
  r1 : Bool
  r2 : Bool
  r3 : Bool
  ev : Option IrResult

/-- One iteration of `loop()`, instrumented with the `saveToEeprom` call
trace: `processLearnButton(); processLearnLed(); processWorkLed();
processIr();` — the two LED procedures only mirror `learnModeEnabled` and
`workLedState` to output pins and change no modelled state. -/
def loopStepT (inp : LoopInput) (s : DeviceState) : DeviceState × List (Nat × Nat) :=
  let s1 := processLearnButton inp.r0 inp.r1 inp.r2 inp.r3 s
  processIrT inp.ev s1

/-- A run of `loop()` iterations from a given state. -/
def runLoop (inputs : List LoopInput) (s : DeviceState) : DeviceState :=
  inputs.foldl (fun s inp => (loopStepT inp s).1) s

/-- A run that only delivers decoded IR events (no button activity):
iterations of `loop()` in which `getButtonState` returns the unchanged
committed state, restricted to the `processIr` part. -/
def runIr (events : List IrResult) (s : DeviceState) : DeviceState :=
  events.foldl (fun s r => (processIrT (some r) s).1) s

/-- The state after `setup()`: the globals start at 0 (`false`), and
`irCodeData = loadFromEeprom(IR_CODE_DATA_ADDRESS)` loads the trained code
from the EEPROM contents `rom`. -/
def startupState (rom : Nat → Nat) : DeviceState :=
  { learnButtonState := false
    learnModeEnabled := false
    workLedState := false
    irCodeData := loadFromEeprom rom IR_CODE_DATA_ADDRESS
    eeprom := rom }

/-! Helper lemmas -/

/-- For a 32-bit pattern, the 64-bit detour of `value &= ~0x8000LL` is the
32-bit mask `v & 0xFFFF7FFF`, i.e. it clears bit 15 and keeps all others. -/
lemma stripToggle_eq (v : Nat) (hv : v < 2 ^ 32) :
    stripToggle v = v &&& 0xFFFF7FFF := by
  have hvmod : v % 2 ^ 32 = v := Nat.mod_eq_of_lt hv
  have hmod : sext32to64 v % 2 ^ 32 = v := by
    unfold sext32to64
    rw [hvmod]
    split
    · exact hvmod
    · omega
  apply Nat.eq_of_testBit_eq
  intro i
  rw [stripToggle, Nat.testBit_mod_two_pow, Nat.testBit_land, Nat.testBit_land]
  by_cases hi : i < 32
  · have hsext : (sext32to64 v).testBit i = v.testBit i := by
      have h := Nat.testBit_mod_two_pow (sext32to64 v) 32 i
      rw [hmod] at h
      simpa [hi] using h.symm
    have hmask : Nat.testBit 0xFFFFFFFFFFFF7FFF i = Nat.testBit 0xFFFF7FFF i := by
      have h := Nat.testBit_mod_two_pow 0xFFFFFFFFFFFF7FFF 32 i
      norm_num at h
      simpa [hi] using h.symm
    simp [hi, hsext, hmask]
  · have hv19 : v.testBit i = false :=
      Nat.testBit_lt_two_pow
        (lt_of_lt_of_le hv (Nat.pow_le_pow_right (by norm_num) (by omega)))
    simp [hi, hv19]

/-- The function `stripToggle` always clears bit 15 of its result. -/
lemma stripToggle_testBit_15 (v : Nat) : (stripToggle v).testBit 15 = false := by
  rw [stripToggle, Nat.testBit_mod_two_pow, Nat.testBit_land]
  have hm : Nat.testBit 0xFFFFFFFFFFFF7FFF 15 = false := by decide
  simp [hm]

/-- The normalizer can never hand `0xFFFFFFFF` to `processCode`: the raw
sentinel is filtered first, and clearing bit 15 cannot produce a value whose
bit 15 is set. -/
lemma normalizeIr_ne_sentinel (r : IrResult) : normalizeIr r ≠ some 0xFFFFFFFF := by
  unfold normalizeIr
  split
  · simp
  · split
    · intro h
      have h' : stripToggle r.value = 0xFFFFFFFF := Option.some.inj h
      have hbit := stripToggle_testBit_15 r.value
      rw [h'] at hbit
      exact absurd hbit (by decide)
    · intro h
      exact absurd (Option.some.inj h) (by assumption)

/-! Claim theorems -/

/-- C1: the persistence round-trip `loadFromEeprom(addr) = v` after
`saveToEeprom(v, addr)` fails for `v = 0x8000`: the low 16-bit word is sign
extended by `makeLong` in `loadFromEeprom`, so the loaded value is
`0xFFFF8000`, not `0x8000`. -/
theorem C1_roundtrip_failure :
    loadFromEeprom (saveToEeprom 0x8000 0 (fun _ => 0)) 0 = 0xFFFF8000 ∧
    (0xFFFF8000 : Nat) ≠ 0x8000 := by
  constructor
  · decide
  · decide

/-- C5: `getButtonState` returns `-1` as soon as one of the three re-reads
disagrees with the initial read, and otherwise the stable state with the
polarity rule applied: with `pullUp = true` an electrically-low pin (all
reads `false`) yields `1` (pressed) and a high pin yields `0` (released). -/
theorem C5_debounce (r0 r1 r2 r3 pullUp : Bool) :
    getButtonState r0 r1 r2 r3 pullUp =
      if r1 = r0 ∧ r2 = r0 ∧ r3 = r0 then
        (if pullUp then (if r0 then 0 else 1) else (if r0 then 1 else 0))
      else -1 := by
  revert r0 r1 r2 r3 pullUp
  decide

/-- C7: `saveToEeprom(v, addr)` performs exactly the four byte writes
`(addr, v[31:24]), (addr+1, v[23:16]), (addr+2, v[15:8]), (addr+3, v[7:0])`
in this order (big-endian, most-significant byte first), leaves every other
address untouched, and `loadFromEeprom` reads exactly the addresses
`addr, addr+1, addr+2, addr+3` in the same order. -/
theorem C7_persisted_layout (v addr : Nat) (rom : Nat → Nat) (hv : v < 2 ^ 32) :
    (saveToEepromT v addr rom).2 =
      [(addr, v / 2 ^ 24), (addr + 1, v / 2 ^ 16 % 2 ^ 8),
       (addr + 2, v / 2 ^ 8 % 2 ^ 8), (addr + 3, v % 2 ^ 8)] ∧
    (∀ a, a < addr ∨ addr + 3 < a → saveToEeprom v addr rom a = rom a) ∧
    (loadFromEepromT rom addr).2 = [addr, addr + 1, addr + 2, addr + 3] := by
  refine ⟨?_, ?_, rfl⟩
  · simp only [saveToEepromT, highWord, lowWord, highByte, lowByte,
      List.cons.injEq, Prod.mk.injEq, and_true, List.nil_eq]
    norm_num
    omega
  · intro a ha
    simp only [saveToEeprom, saveToEepromT, eepromWrite, List.foldl]
    rw [if_neg (by omega), if_neg (by omega), if_neg (by omega), if_neg (by omega)]

/-- Witness for C7 at `v = 0x12345678`, `addr = 2`. -/
theorem C7_persisted_layout_witness :
    (0x12345678 : Nat) < 2 ^ 32 ∧
    ((saveToEepromT 0x12345678 2 (fun _ => 9)).2 =
      [(2, 0x12345678 / 2 ^ 24), (2 + 1, 0x12345678 / 2 ^ 16 % 2 ^ 8),
       (2 + 2, 0x12345678 / 2 ^ 8 % 2 ^ 8), (2 + 3, 0x12345678 % 2 ^ 8)] ∧
     (∀ a, a < 2 ∨ 2 + 3 < a → saveToEeprom 0x12345678 2 (fun _ => 9) a = 9) ∧
     (loadFromEepromT (fun _ => 9) 2).2 = [2, 2 + 1, 2 + 2, 2 + 3]) :=
  ⟨by decide, C7_persisted_layout 0x12345678 2 (fun _ => 9) (by decide)⟩

/-- C2: if `processCode` runs while learn mode is enabled, afterwards the
trained code equals the delivered value, the value has been persisted (the
EEPROM equals the store after `saveToEeprom` of that value at the configured
address), learn mode is disabled, and the work-LED output is unchanged. -/
theorem C2_learn_commit (v : Nat) (s : DeviceState) (h : s.learnModeEnabled = true) :
    (processCode v s).irCodeData = v ∧
    (processCode v s).eeprom = saveToEeprom v IR_CODE_DATA_ADDRESS s.eeprom ∧
    (processCode v s).learnModeEnabled = false ∧
    (processCode v s).workLedState = s.workLedState := by
  simp [processCode, processCodeT, h]

/-- Witness for C2: learning `0xA5` from a learning-mode state. -/
theorem C2_learn_commit_witness :
    (processCode 0xA5 ⟨true, true, false, 7, fun _ => 0⟩).irCodeData = 0xA5 ∧
    (processCode 0xA5 ⟨true, true, false, 7, fun _ => 0⟩).eeprom =
      saveToEeprom 0xA5 IR_CODE_DATA_ADDRESS (fun _ => 0) ∧
    (processCode 0xA5 ⟨true, true, false, 7, fun _ => 0⟩).learnModeEnabled = false ∧
    (processCode 0xA5 ⟨true, true, false, 7, fun _ => 0⟩).workLedState = false :=
  C2_learn_commit 0xA5 ⟨true, true, false, 7, fun _ => 0⟩ rfl

/-- C3: with learn mode disabled, a value equal to the trained code flips
only the work-LED state (and performs no save), and a value different from
the trained code changes nothing at all. -/
theorem C3_normal_match (v : Nat) (s : DeviceState) (h : s.learnModeEnabled = false) :
    (s.irCodeData = v →
      processCodeT v s = ({ s with workLedState := !s.workLedState }, [])) ∧
    (s.irCodeData ≠ v → processCodeT v s = (s, [])) := by
  constructor <;> intro hv <;> simp [processCodeT, h, hv]

/-- Witness for C3: trained code `0xA5`; delivering `0xA5` toggles the LED,
delivering `0x5A` changes nothing. -/
theorem C3_normal_match_witness :
    processCodeT 0xA5 ⟨false, false, false, 0xA5, fun _ => 0⟩ =
      (⟨false, false, true, 0xA5, fun _ => 0⟩, []) ∧
    processCodeT 0x5A ⟨false, false, false, 0xA5, fun _ => 0⟩ =
      (⟨false, false, false, 0xA5, fun _ => 0⟩, []) :=
  ⟨(C3_normal_match 0xA5 ⟨false, false, false, 0xA5, fun _ => 0⟩ rfl).1 rfl,
   (C3_normal_match 0x5A ⟨false, false, false, 0xA5, fun _ => 0⟩ rfl).2 (by decide)⟩

/-- C4: the normalizer ignores a raw value of `0xFFFFFFFF` for every
protocol tag; for `RC6` it passes on the raw value with bit 15 cleared
(`v & ~0x8000`, i.e. `v &&& 0xFFFF7FFF`), with bit 15 false in the result
and every other bit preserved; for every other tag it passes the raw value
through unchanged. -/
theorem C4_normalizer (r : IrResult) (hv : r.value < 2 ^ 32) :
    (r.value = 0xFFFFFFFF → normalizeIr r = none) ∧
    (r.value ≠ 0xFFFFFFFF → r.decode_type = DecodeType.RC6 →
      normalizeIr r = some (r.value &&& 0xFFFF7FFF) ∧
      (r.value &&& 0xFFFF7FFF).testBit 15 = false ∧
      (∀ i, i ≠ 15 → (r.value &&& 0xFFFF7FFF).testBit i = r.value.testBit i)) ∧
    (r.value ≠ 0xFFFFFFFF → r.decode_type ≠ DecodeType.RC6 →
      normalizeIr r = some r.value) := by
  refine ⟨fun hs => ?_, fun hs ht => ⟨?_, ?_, fun i hi => ?_⟩, fun hs ht => ?_⟩
  · simp [normalizeIr, hs]
  · simp [normalizeIr, hs, ht, stripToggle_eq r.value hv]
  · rw [Nat.testBit_land]
    have hm : Nat.testBit 0xFFFF7FFF 15 = false := by decide
    simp [hm]
  · rw [Nat.testBit_land]
    by_cases hlt : i < 32
    · have hm : Nat.testBit 0xFFFF7FFF i = true := by
        interval_cases i <;> first | decide | exact absurd rfl hi
      rw [hm, Bool.and_true]
    · have hz : r.value.testBit i = false :=
        Nat.testBit_lt_two_pow
          (lt_of_lt_of_le hv (Nat.pow_le_pow_right (by norm_num) (by omega)))
      simp [hz]
  · simp [normalizeIr, hs, ht]

/-- Witness for C4 at the RC6 event `{value := 0x8123, tag := RC6}`. -/
theorem C4_normalizer_witness :
    ((0x8123 : Nat) = 0xFFFFFFFF → normalizeIr ⟨0x8123, DecodeType.RC6⟩ = none) ∧
    ((0x8123 : Nat) ≠ 0xFFFFFFFF → DecodeType.RC6 = DecodeType.RC6 →
      normalizeIr ⟨0x8123, DecodeType.RC6⟩ = some (0x8123 &&& 0xFFFF7FFF) ∧
      ((0x8123 : Nat) &&& 0xFFFF7FFF).testBit 15 = false ∧
      (∀ i, i ≠ 15 →
        ((0x8123 : Nat) &&& 0xFFFF7FFF).testBit i = (0x8123 : Nat).testBit i)) ∧
    ((0x8123 : Nat) ≠ 0xFFFFFFFF → DecodeType.RC6 ≠ DecodeType.RC6 →
      normalizeIr ⟨0x8123, DecodeType.RC6⟩ = some 0x8123) :=
  C4_normalizer ⟨0x8123, DecodeType.RC6⟩ (by decide)

/-- C6: a debounced Pressed→Released edge (stable released sample, committed
state pressed) while in learning mode returns the mode to normal while the
trained code, the EEPROM contents and the work-LED state are all unchanged;
an indeterminate sample changes nothing at all. -/
theorem C6_abort_learn (r0 r1 r2 r3 : Bool) (s : DeviceState) :
    (getButtonState r0 r1 r2 r3 true = 0 → s.learnButtonState = true →
      s.learnModeEnabled = true →
      (processLearnButton r0 r1 r2 r3 s).learnModeEnabled = false ∧
      (processLearnButton r0 r1 r2 r3 s).irCodeData = s.irCodeData ∧
      (processLearnButton r0 r1 r2 r3 s).eeprom = s.eeprom ∧
      (processLearnButton r0 r1 r2 r3 s).workLedState = s.workLedState) ∧
    (getButtonState r0 r1 r2 r3 true = -1 → processLearnButton r0 r1 r2 r3 s = s) := by
  constructor
  · intro hb hp _
    simp [processLearnButton, hb, hp]
  · intro hb
    simp [processLearnButton, hb]

/-- Witness for C6: a stable high (released) sample aborts learning from a
pressed learning-mode state; a bouncing sample leaves the state untouched. -/
theorem C6_abort_learn_witness :
    ((processLearnButton true true true true ⟨true, true, false, 5, fun _ => 3⟩).learnModeEnabled = false ∧
     (processLearnButton true true true true ⟨true, true, false, 5, fun _ => 3⟩).irCodeData = 5 ∧
     (processLearnButton true true true true ⟨true, true, false, 5, fun _ => 3⟩).eeprom = (fun _ => 3) ∧
     (processLearnButton true true true true ⟨true, true, false, 5, fun _ => 3⟩).workLedState = false) ∧
    processLearnButton false true false false ⟨false, false, false, 5, fun _ => 3⟩ =
      ⟨false, false, false, 5, fun _ => 3⟩ :=
  ⟨(C6_abort_learn true true true true ⟨true, true, false, 5, fun _ => 3⟩).1 rfl rfl rfl,
   (C6_abort_learn false true false false ⟨false, false, false, 5, fun _ => 3⟩).2 rfl⟩

/-- The procedure `processLearnButton` never touches the trained code, the EEPROM or the
work-LED state. -/
lemma processLearnButton_frame (r0 r1 r2 r3 : Bool) (s : DeviceState) :
    (processLearnButton r0 r1 r2 r3 s).irCodeData = s.irCodeData ∧
    (processLearnButton r0 r1 r2 r3 s).eeprom = s.eeprom ∧
    (processLearnButton r0 r1 r2 r3 s).workLedState = s.workLedState := by
  simp only [processLearnButton]
  by_cases h1 : getButtonState r0 r1 r2 r3 true = -1
  · rw [if_pos h1]
    exact ⟨rfl, rfl, rfl⟩
  · rw [if_neg h1]
    by_cases h2 : getButtonState r0 r1 r2 r3 true = (if s.learnButtonState then 1 else 0)
    · rw [if_pos h2]
      exact ⟨rfl, rfl, rfl⟩
    · rw [if_neg h2]
      exact ⟨rfl, rfl, rfl⟩

/-- C8: in any `loop()` iteration, either the trained code and the EEPROM
are unchanged and no `saveToEeprom` call happens, or the iteration is a
learn commit: a decoded event was normalized to some value `v` while learn
mode was enabled at the `processCode` call, the trained code becomes `v`,
learn mode turns off, and exactly one `saveToEeprom` call — of `v` at the
configured address — accompanies the change. -/
theorem C8_write_through (inp : LoopInput) (s : DeviceState) :
    ((loopStepT inp s).1.irCodeData = s.irCodeData ∧
     (loopStepT inp s).1.eeprom = s.eeprom ∧
     (loopStepT inp s).2 = []) ∨
    (∃ r v, inp.ev = some r ∧ normalizeIr r = some v ∧
      (processLearnButton inp.r0 inp.r1 inp.r2 inp.r3 s).learnModeEnabled = true ∧
      (loopStepT inp s).1.irCodeData = v ∧
      (loopStepT inp s).1.learnModeEnabled = false ∧
      (loopStepT inp s).2 = [(v, IR_CODE_DATA_ADDRESS)] ∧
      (loopStepT inp s).1.eeprom = saveToEeprom v IR_CODE_DATA_ADDRESS s.eeprom) := by
  obtain ⟨hc, he, -⟩ := processLearnButton_frame inp.r0 inp.r1 inp.r2 inp.r3 s
  rcases hev : inp.ev with _ | r
  · left
    simp [loopStepT, processIrT, hev, hc, he]
  · rcases hn : normalizeIr r with _ | v
    · left
      simp [loopStepT, processIrT, hev, hn, hc, he]
    · by_cases hl : (processLearnButton inp.r0 inp.r1 inp.r2 inp.r3 s).learnModeEnabled = true
      · right
        refine ⟨r, v, rfl, hn, hl, ?_, ?_, ?_, ?_⟩ <;>
          simp [loopStepT, processIrT, hev, hn, processCodeT, hl, he]
      · left
        rw [Bool.not_eq_true] at hl
        by_cases hm : s.irCodeData = v <;>
          simp [loopStepT, processIrT, hev, hn, processCodeT, hl, hm, hc, he]

/-- One IR event leaves a normal-mode state whose trained code is the
sentinel `0xFFFFFFFF` completely unchanged. -/
lemma processIr_sentinel_frozen (r : IrResult) (s : DeviceState)
    (hcode : s.irCodeData = 0xFFFFFFFF) (hmode : s.learnModeEnabled = false) :
    (processIrT (some r) s).1 = s := by
  rcases hn : normalizeIr r with _ | v
  · simp [processIrT, hn]
  · have hne : (0xFFFFFFFF : Nat) ≠ v := by
      intro h
      exact normalizeIr_ne_sentinel r (h ▸ hn)
    simp [processIrT, hn, processCodeT, hmode, hcode, hne]

/-- C9: the normalizer never passes `0xFFFFFFFF` to `processCode` (the raw
sentinel is filtered before the toggle-bit step, and clearing bit 15 cannot
produce `0xFFFFFFFF`), so a normal-mode device whose trained code is the
uninitialized-storage default `0xFFFFFFFF` never changes any state — in
particular it never toggles the output and never writes the store — under
every sequence of decoded events. -/
theorem C9_sentinel_inert :
    (∀ r : IrResult, normalizeIr r ≠ some 0xFFFFFFFF) ∧
    (∀ (events : List IrResult) (s : DeviceState),
      s.irCodeData = 0xFFFFFFFF → s.learnModeEnabled = false →
      runIr events s = s) := by
  refine ⟨normalizeIr_ne_sentinel, fun events s hcode hmode => ?_⟩
  induction events with
  | nil => rfl
  | cons r rest ih =>
      have hstep := processIr_sentinel_frozen r s hcode hmode
      calc runIr (r :: rest) s = runIr rest ((processIrT (some r) s).1) := rfl
        _ = runIr rest s := by rw [hstep]
        _ = s := ih

/-- Witness for C9: a device trained (by uninitialized storage) to
`0xFFFFFFFF` ignores an NEC code, an RC6 code and the sentinel itself. -/
theorem C9_sentinel_inert_witness :
    runIr [⟨0x20DF10EF, DecodeType.NEC⟩, ⟨0x8000, DecodeType.RC6⟩,
           ⟨0xFFFFFFFF, DecodeType.SONY⟩]
        ⟨false, false, false, 0xFFFFFFFF, fun _ => 0xFF⟩ =
      ⟨false, false, false, 0xFFFFFFFF, fun _ => 0xFF⟩ :=
  C9_sentinel_inert.2 _ _ rfl rfl

/-- One `loop()` iteration preserves the invariant that learning mode is
only on while the committed button state is pressed: `processLearnButton`
assigns both flags from the same sample, and `processCode` only ever clears
`learnModeEnabled`. -/
lemma learnMode_imp_button_step (inp : LoopInput) (s : DeviceState)
    (h : s.learnModeEnabled = true → s.learnButtonState = true) :
    (loopStepT inp s).1.learnModeEnabled = true →
    (loopStepT inp s).1.learnButtonState = true := by
  have hbtn : (processLearnButton inp.r0 inp.r1 inp.r2 inp.r3 s).learnModeEnabled = true →
      (processLearnButton inp.r0 inp.r1 inp.r2 inp.r3 s).learnButtonState = true := by
    simp only [processLearnButton]
    by_cases h1 : getButtonState inp.r0 inp.r1 inp.r2 inp.r3 true = -1
    · rw [if_pos h1]
      exact h
    · rw [if_neg h1]
      by_cases h2 : getButtonState inp.r0 inp.r1 inp.r2 inp.r3 true =
          (if s.learnButtonState then 1 else 0)
      · rw [if_pos h2]
        exact h
      · rw [if_neg h2]
        exact fun hh => hh
  rcases hev : inp.ev with _ | r
  · simpa [loopStepT, processIrT, hev] using hbtn
  · rcases hn : normalizeIr r with _ | v
    · simpa [loopStepT, processIrT, hev, hn] using hbtn
    · simp only [loopStepT, processIrT, hev, hn, processCodeT]
      split
      · simp
      · split
        · exact fun hh => hbtn hh
        · exact hbtn

/-- The invariant of `learnMode_imp_button_step`, preserved along any run. -/
lemma learnMode_imp_button_run (inputs : List LoopInput) (s : DeviceState)
    (h : s.learnModeEnabled = true → s.learnButtonState = true) :
    (runLoop inputs s).learnModeEnabled = true →
    (runLoop inputs s).learnButtonState = true := by
  induction inputs generalizing s with
  | nil => exact h
  | cons inp rest ih =>
      exact ih ((loopStepT inp s).1) (learnMode_imp_button_step inp s h)

/-- C10: at every loop-iteration boundary of a run from the startup state,
`learnModeEnabled` implies the committed `learnButtonState` is pressed; and
after a commit with the button still held (learn mode off, committed state
pressed), the subsequent debounced release edge changes nothing but the
committed button state. -/
theorem C10_learn_implies_pressed :
    (∀ (rom : Nat → Nat) (inputs : List LoopInput),
      (runLoop inputs (startupState rom)).learnModeEnabled = true →
      (runLoop inputs (startupState rom)).learnButtonState = true) ∧
    (∀ (r0 r1 r2 r3 : Bool) (s : DeviceState),
      s.learnModeEnabled = false → s.learnButtonState = true →
      getButtonState r0 r1 r2 r3 true = 0 →
      processLearnButton r0 r1 r2 r3 s = { s with learnButtonState := false }) := by
  constructor
  · intro rom inputs
    exact learnMode_imp_button_run inputs (startupState rom) (by simp [startupState])
  · intro r0 r1 r2 r3 s hmode hpress hsample
    obtain ⟨a, b, c, d, e⟩ := s
    simp only at hmode hpress
    subst hmode
    subst hpress
    simp [processLearnButton, hsample]

/-- Witness for C10: one press iteration from startup makes the committed button state of the run pressed; a release edge from a post-commit state
(mode already normal, button still pressed) only clears the committed
button state. -/
theorem C10_learn_implies_pressed_witness :
    (runLoop [⟨false, false, false, false, none⟩]
        (startupState fun _ => 0)).learnButtonState = true ∧
    processLearnButton true true true true ⟨true, false, true, 9, fun _ => 1⟩ =
      ⟨false, false, true, 9, fun _ => 1⟩ :=
  ⟨C10_learn_implies_pressed.1 (fun _ => 0) [⟨false, false, false, false, none⟩] rfl,
   C10_learn_implies_pressed.2 true true true true
     ⟨true, false, true, 9, fun _ => 1⟩ rfl rfl rfl⟩

end LearnIRCode
